import Mathlib

/-!
Shallow embedding of the triangle stress-test renderer (src/src/main.rs).

The program negotiates a GPU adapter and device, queries the surface's
preferred texture format, builds one render pipeline against that format,
uploads a static vertex payload of one million identical triangles, configures
the surface once with the window's startup size, and then runs a winit event
loop: every redraw request acquires a frame, records one render pass (clear to
black, one draw of all vertices, one instance), submits it and presents it;
a close request exits the loop.

Pure data (vertices, descriptors, layouts) is embedded directly; the calls to
the external GPU API are embedded as an explicit command trace, and fallible
steps (adapter/device negotiation, frame acquisition) return Except, with the
untouched expect messages of the source as the error diagnostics.  Floating
point literals of the source (0.0, 0.5, -0.5, 1.0) are exactly representable
and never operated on, so positions and colors are embedded as rationals.
-/

namespace TriangleTest

/-! ## Basic GPU vocabulary -/

/-- Texture formats a surface can prefer (src uses whichever
the surface/adapter pair reports; the concrete constructor is irrelevant). -/
inductive TextureFormat
  | bgra8UnormSrgb
  | rgba8UnormSrgb
  | other (code : Nat)
deriving DecidableEq

/-- Present modes, main.rs:202-206; the source picks Immediate. -/
inductive PresentMode
  | immediate
  | mailbox
  | fifo
deriving DecidableEq

/-- Texture usages; main.rs:190 uses RENDER_ATTACHMENT. -/
inductive TextureUsages
  | renderAttachment
deriving DecidableEq

/-- Power preference for adapter selection, main.rs:43. -/
inductive PowerPreference
  | lowPower
  | highPerformance
deriving DecidableEq

/-- A clear color; wgpu Color::BLACK is r=0, g=0, b=0, a=1 (main.rs:253). -/
structure Color where
  r : ℚ
  g : ℚ
  b : ℚ
  a : ℚ
deriving DecidableEq

/-- Color::BLACK. -/
def colorBlack : Color := { r := 0, g := 0, b := 0, a := 1 }

/-- Load operation of a render-pass color attachment, main.rs:253. -/
inductive LoadOp
  | clear (c : Color)
  | load
deriving DecidableEq

/-! ## Vertex data (main.rs:87-112) -/

/-- One vertex record: repr(C) struct { position: [f32; 3], color: [f32; 3] },
main.rs:87-92. -/
structure Vertex where
  position : ℚ × ℚ × ℚ
  color : ℚ × ℚ × ℚ
deriving DecidableEq

/-- The red apex vertex pushed first in each loop iteration, main.rs:96. -/
def apexVertex : Vertex :=
  { position := (0, 1/2, 0), color := (1, 0, 0) }

/-- The green bottom-left vertex, main.rs:97. -/
def bottomLeftVertex : Vertex :=
  { position := (-(1/2), -(1/2), 0), color := (0, 1, 0) }

/-- The blue bottom-right vertex, main.rs:98. -/
def bottomRightVertex : Vertex :=
  { position := (1/2, -(1/2), 0), color := (0, 0, 1) }

/-- The red color literal of the apex vertex. -/
def red : ℚ × ℚ × ℚ := (1, 0, 0)

/-- The green color literal of the bottom-left vertex. -/
def green : ℚ × ℚ × ℚ := (0, 1, 0)

/-- The blue color literal of the bottom-right vertex. -/
def blue : ℚ × ℚ × ℚ := (0, 0, 1)

/-- The vertex array built by the for-loop at main.rs:94-99, generalized over
the iteration count: each iteration pushes apex, bottom-left, bottom-right. -/
def mkVerts : Nat → List Vertex
  | 0 => []
  | n + 1 => apexVertex :: bottomLeftVertex :: bottomRightVertex :: mkVerts n

/-- The iteration count hard-coded in the source: 1_000_000 (main.rs:95). -/
def progN : Nat := 1000000

/-- The vertex array of the program, main.rs:94-99. -/
def verts : List Vertex := mkVerts progN

/-- Buffer usages; the vertex buffer is tagged VERTEX (main.rs:110). -/
inductive BufferUsages
  | vertex
deriving DecidableEq

/-- A GPU buffer created with create_buffer_init: its initializing contents
and its usage tag (main.rs:102-112; contents are the raw bytes of verts,
embedded at vertex granularity). -/
structure Buffer where
  contents : List Vertex
  usage : BufferUsages
deriving DecidableEq

/-- The vertex buffer, uploaded once before the frame loop, main.rs:102-112. -/
def vertex_buffer : Buffer :=
  { contents := verts, usage := BufferUsages.vertex }

/-! ## Vertex buffer layout (main.rs:114-131) -/

/-- Vertex attribute formats; both attributes use Float32x3. -/
inductive VertexFormat
  | float32x3
deriving DecidableEq

/-- Step mode of a vertex buffer, main.rs:118. -/
inductive VertexStepMode
  | vertex
  | perInstance
deriving DecidableEq

/-- One vertex attribute: byte offset, shader location, format. -/
structure VertexAttribute where
  offset : Nat
  shaderLocation : Nat
  format : VertexFormat
deriving DecidableEq

/-- A vertex buffer layout: stride in bytes, step mode, attribute list. -/
structure VertexBufferLayout where
  arrayStride : Nat
  stepMode : VertexStepMode
  attributes : List VertexAttribute
deriving DecidableEq

/-- size_of::<f32>() = 4 bytes. -/
def sizeOfF32 : Nat := 4

/-- size_of::<[f32; 3]>() = 12 bytes (main.rs:126). -/
def sizeOfFloat3 : Nat := 3 * sizeOfF32

/-- size_of::<Vertex>() = 24 bytes: repr(C) with two [f32; 3] fields,
4-byte alignment, no padding (main.rs:117). -/
def sizeOfVertex : Nat := 2 * sizeOfFloat3

/-- The vertex buffer layout vbl of main.rs:116-131. -/
def vbl : VertexBufferLayout :=
  { arrayStride := sizeOfVertex
    stepMode := VertexStepMode.vertex
    attributes :=
      [ { offset := 0, shaderLocation := 0, format := VertexFormat.float32x3 }
      , { offset := sizeOfFloat3, shaderLocation := 1,
          format := VertexFormat.float32x3 } ] }

/-! ## Render pipeline (main.rs:133-183) -/

/-- Primitive topology; PrimitiveState::default() is TriangleList. -/
inductive PrimitiveTopology
  | triangleList
  | triangleStrip
deriving DecidableEq

/-- Primitive assembly state, main.rs:158. -/
structure PrimitiveState where
  topology : PrimitiveTopology
  cullMode : Option Unit
deriving DecidableEq

/-- PrimitiveState::default(): triangle list, no culling. -/
def PrimitiveState.default : PrimitiveState :=
  { topology := PrimitiveTopology.triangleList, cullMode := none }

/-- Multisample state, main.rs:178. -/
structure MultisampleState where
  count : Nat
  alphaToCoverageEnabled : Bool
deriving DecidableEq

/-- MultisampleState::default(): one sample, no alpha-to-coverage. -/
def MultisampleState.default : MultisampleState :=
  { count := 1, alphaToCoverageEnabled := false }

/-- The render pipeline descriptor fields the program fills in,
main.rs:134-183. -/
structure RenderPipeline where
  label : Option String
  vertexEntryPoint : String
  vertexBuffers : List VertexBufferLayout
  primitive : PrimitiveState
  fragmentEntryPoint : String
  fragmentTargets : List TextureFormat
  depthStencil : Option Unit
  multisample : MultisampleState
deriving DecidableEq

/-- The pipeline built at main.rs:134-183, as a function of the
swapchain_format value it captures (main.rs:170). -/
def mkRenderPipeline (swapchainFormat : TextureFormat) : RenderPipeline :=
  { label := none
    vertexEntryPoint := "vs_main"
    vertexBuffers := [vbl]
    primitive := PrimitiveState.default
    fragmentEntryPoint := "fs_main"
    fragmentTargets := [swapchainFormat]
    depthStencil := none
    multisample := MultisampleState.default }

/-! ## Device negotiation (main.rs:39-74) -/

/-- Adapter request options, main.rs:40-50.  compatible_surface is
Some(&surface); the surface itself is opaque, so the option carries Unit. -/
structure RequestAdapterOptions where
  powerPreference : PowerPreference
  forceFallbackAdapter : Bool
  compatibleSurface : Option Unit
deriving DecidableEq

/-- The options the program passes to request_adapter, main.rs:40-50. -/
def adapterOptions : RequestAdapterOptions :=
  { powerPreference := PowerPreference.highPerformance
    forceFallbackAdapter := false
    compatibleSurface := some () }

/-- Device limits; wgpu Limits::default() (two representative fields). -/
structure Limits where
  maxTextureDimension2d : Nat
  maxBindGroups : Nat
deriving DecidableEq

/-- Limits::default(), main.rs:72. -/
def Limits.default : Limits :=
  { maxTextureDimension2d := 8192, maxBindGroups := 4 }

/-- Device descriptor, main.rs:62-73.  Features are a bitflag word;
Features::empty() is 0. -/
structure DeviceDescriptor where
  label : Option String
  features : Nat
  limits : Limits
deriving DecidableEq

/-- The descriptor the program passes to request_device, main.rs:62-73. -/
def deviceDescriptor : DeviceDescriptor :=
  { label := none, features := 0, limits := Limits.default }

/-- What the external backend offers: whether some adapter satisfies a given
request, and whether a given device request is satisfiable on it. -/
structure NegotiationEnv where
  adapterAvailable : RequestAdapterOptions → Bool
  deviceSatisfiable : DeviceDescriptor → Bool

/-- instance.request_adapter: some adapter, or none if no adapter satisfies
the options (main.rs:40-50). -/
def requestAdapter (env : NegotiationEnv) (opts : RequestAdapterOptions) :
    Option Unit :=
  if env.adapterAvailable opts then some () else none

/-- adapter.request_device: a device/queue pair, or none if the requested
features/limits cannot be satisfied (main.rs:62-73). -/
def requestDevice (env : NegotiationEnv) (d : DeviceDescriptor) :
    Option Unit :=
  if env.deviceSatisfiable d then some () else none

/-- Startup negotiation, main.rs:39-74: request the adapter and the device,
aborting with the source's expect messages on failure. -/
def negotiate (env : NegotiationEnv) : Except String Unit :=
  match requestAdapter env adapterOptions with
  | none => Except.error "Failed to find an appropriate adapter"
  | some _ =>
    match requestDevice env deviceDescriptor with
    | none => Except.error "Failed to create device"
    | some _ => Except.ok ()

/-! ## Surface configuration and setup sequence (main.rs:76-207) -/

/-- The surface's presentation configuration, main.rs:187-207. -/
structure SurfaceConfiguration where
  usage : TextureUsages
  format : TextureFormat
  width : Nat
  height : Nat
  presentMode : PresentMode
deriving DecidableEq

/-- Observable actions the program performs against the external GPU and
windowing APIs, recorded as a trace. -/
inductive GpuCmd
  | configureSurface (cfg : SurfaceConfiguration)
  | acquire
  | createView
  | createEncoder
  | beginRenderPass (loadOp : LoadOp) (store : Bool)
  | setPipeline
  | setVertexBuffer (slot : Nat)
  | draw (firstVertex vertexCount firstInstance instanceCount : Nat)
  | endRenderPass
  | finishEncoder
  | submit
  | present
  | requestRedraw
deriving DecidableEq

/-- The external world as the program observes it: the preferred format the
surface/adapter pair reports, the window's startup inner size, and whether
the i-th frame acquisition succeeds. -/
structure Env where
  preferredFormat : TextureFormat
  size : Nat × Nat
  acquireOk : Nat → Bool

/-- State threaded through the setup sequence: how many times
surface.get_preferred_format has been called, and the trace of commands. -/
abbrev SetupM := StateM (Nat × List GpuCmd)

/-- surface.get_preferred_format(&adapter).unwrap(): returns the preferred
format (deterministic for a fixed surface/adapter pair) and counts the call. -/
def getPreferredFormat (env : Env) : SetupM TextureFormat :=
  fun st => (env.preferredFormat, (st.1 + 1, st.2))

/-- surface.configure(&device, &config): records the configuration call. -/
def configureSurface (cfg : SurfaceConfiguration) : SetupM Unit :=
  fun st => ((), (st.1, st.2 ++ [GpuCmd.configureSurface cfg]))

/-- The straight-line setup of main.rs:83-207: bind swapchain_format from one
preferred-format query (line 85), build the pipeline against it (line 170),
then configure the surface with usage RENDER_ATTACHMENT, a freshly re-queried
preferred format (line 194), the window's inner size (lines 197-200), and
PresentMode::Immediate (line 206). -/
def mainSetup (env : Env) : SetupM (RenderPipeline × SurfaceConfiguration) := do
  let swapchain_format ← getPreferredFormat env
  let render_pipeline := mkRenderPipeline swapchain_format
  let fmt ← getPreferredFormat env
  let config : SurfaceConfiguration :=
    { usage := TextureUsages.renderAttachment
      format := fmt
      width := env.size.1
      height := env.size.2
      presentMode := PresentMode.immediate }
  configureSurface config
  pure (render_pipeline, config)

/-- Run the setup from a zero query count and an empty trace. -/
def setupRun (env : Env) :
    (RenderPipeline × SurfaceConfiguration) × (Nat × List GpuCmd) :=
  mainSetup env (0, [])

/-- How many preferred-format queries the setup performs. -/
def setupQueryCount (env : Env) : Nat := (setupRun env).2.1

/-- The pipeline the setup builds. -/
def setupPipeline (env : Env) : RenderPipeline := (setupRun env).1.1

/-- The surface configuration the setup installs. -/
def setupConfig (env : Env) : SurfaceConfiguration := (setupRun env).1.2

/-! ## The event loop (main.rs:22-24, 209-297) -/

/-- The window is built with_resizable(false), main.rs:22-24. -/
def windowResizable : Bool := false

/-- winit ControlFlow values the program uses, main.rs:217 and 223. -/
inductive ControlFlow
  | wait
  | poll
  | exit
deriving DecidableEq

/-- Loop state: the control flow cell, the surface's current presentation
configuration, and the frame counter (main.rs:211). -/
structure LoopState where
  controlFlow : ControlFlow
  config : SurfaceConfiguration
  frames : Nat
deriving DecidableEq

/-- Events the windowing collaborator can deliver to the closure. -/
inductive WEvent
  | closeRequested
  | resized (w h : Nat)
  | redrawRequested
  | mainEventsCleared
  | other
deriving DecidableEq

/-- The command sequence of one successful redraw, main.rs:229-283: acquire
the frame, create its view, create an encoder, open one render pass whose
single color attachment clears to black and stores on exit, set the pipeline,
set the vertex buffer at slot 0, draw vertices 0..numVerts with instances
0..1, close the pass, finish the encoder, submit, present. -/
def redrawSeq (numVerts : Nat) : List GpuCmd :=
  [ GpuCmd.acquire
  , GpuCmd.createView
  , GpuCmd.createEncoder
  , GpuCmd.beginRenderPass (LoadOp.clear colorBlack) true
  , GpuCmd.setPipeline
  , GpuCmd.setVertexBuffer 0
  , GpuCmd.draw 0 numVerts 0 1
  , GpuCmd.endRenderPass
  , GpuCmd.finishEncoder
  , GpuCmd.submit
  , GpuCmd.present ]

/-- One invocation of the event-loop closure, main.rs:212-296.  The closure
first sets control_flow to Wait (line 217), then matches the event:
CloseRequested sets control_flow to Exit (line 223); RedrawRequested runs the
frame sequence, with get_current_texture().expect(..) aborting the run when
acquisition fails (lines 229-231); MainEventsCleared requests a redraw
(line 290); every other event, including any size change, is unhandled
(line 292). -/
def step (env : Env) (s : LoopState) : WEvent → Except String (LoopState × List GpuCmd)
  | WEvent.closeRequested =>
    Except.ok ({ s with controlFlow := ControlFlow.exit }, [])
  | WEvent.redrawRequested =>
    if env.acquireOk s.frames then
      Except.ok ({ s with controlFlow := ControlFlow.wait, frames := s.frames + 1 },
        redrawSeq verts.length)
    else
      Except.error "Failed to acquire next swap chain texture"
  | WEvent.mainEventsCleared =>
    Except.ok ({ s with controlFlow := ControlFlow.wait }, [GpuCmd.requestRedraw])
  | _ =>
    Except.ok ({ s with controlFlow := ControlFlow.wait }, [])

/-- Run the event loop over a list of delivered events, stopping once the
control flow is Exit; accumulates the command trace. -/
def run (env : Env) (s : LoopState) : List WEvent → Except String (LoopState × List GpuCmd)
  | [] => Except.ok (s, [])
  | e :: es =>
    if s.controlFlow = ControlFlow.exit then
      Except.ok (s, [])
    else
      match step env s e with
      | Except.error msg => Except.error msg
      | Except.ok (s1, cs) =>
        match run env s1 es with
        | Except.error msg => Except.error msg
        | Except.ok (s2, cs2) => Except.ok (s2, cs ++ cs2)

/-- The loop state right after setup: control flow Wait, the installed
configuration, frame counter zero (main.rs:209-217). -/
def initState (env : Env) : LoopState :=
  { controlFlow := ControlFlow.wait, config := setupConfig env, frames := 0 }

/-- A concrete environment: the surface prefers Bgra8UnormSrgb, the window
opens at 100 by 100, every acquisition succeeds. -/
def env0 : Env :=
  { preferredFormat := TextureFormat.bgra8UnormSrgb
    size := (100, 100)
    acquireOk := fun _ => true }

/-- A concrete environment whose acquisitions all fail. -/
def envFail : Env :=
  { preferredFormat := TextureFormat.bgra8UnormSrgb
    size := (100, 100)
    acquireOk := fun _ => false }

/-! ## Frame token semantics -/

/-- Modelled from the spec: the Frame Token is the single-use handle to one
presentable image; the token-consumption rule ("after presentation the token
is invalid and must not be reused", "presenting the same Frame Token twice
must be rejected") is enforced by the external presentation API rather than
by code under src/, so it is modelled here from the spec's words. -/
structure FrameToken where
  presented : Bool
deriving DecidableEq

/-- Modelled from the spec: presenting a live token consumes it; presenting
an already-presented token is rejected, not performed. -/
def FrameToken.present (t : FrameToken) : Except String FrameToken :=
  if t.presented then
    Except.error "frame token already presented"
  else
    Except.ok { presented := true }

/-! ## Command classification predicates -/

/-- Is this command a surface configuration? -/
def isConfigureCmd : GpuCmd → Bool
  | GpuCmd.configureSurface _ => true
  | _ => false

/-- Is this command a frame acquisition? -/
def isAcquireCmd : GpuCmd → Bool
  | GpuCmd.acquire => true
  | _ => false

/-- Is this command a presentation? -/
def isPresentCmd : GpuCmd → Bool
  | GpuCmd.present => true
  | _ => false

/-- Is this command an encoder creation? -/
def isCreateEncoderCmd : GpuCmd → Bool
  | GpuCmd.createEncoder => true
  | _ => false

/-- Is this command a render-pass opening? -/
def isBeginPassCmd : GpuCmd → Bool
  | GpuCmd.beginRenderPass _ _ => true
  | _ => false

/-- Is this command a render-pass close? -/
def isEndPassCmd : GpuCmd → Bool
  | GpuCmd.endRenderPass => true
  | _ => false

/-- Is this command an encoder finish? -/
def isFinishCmd : GpuCmd → Bool
  | GpuCmd.finishEncoder => true
  | _ => false

/-- Is this command a draw call? -/
def isDrawCmd : GpuCmd → Bool
  | GpuCmd.draw _ _ _ _ => true
  | _ => false

/-! ## Helper lemmas -/

/-- Each loop iteration pushes three vertices, so the array has 3 n entries. -/
theorem mkVerts_length (n : Nat) : (mkVerts n).length = 3 * n := by
  induction n with
  | zero => rfl
  | succ k ih =>
    simp only [mkVerts, List.length_cons, ih]
    omega

/-- The vertex array is n juxtaposed copies of the one fixed triangle. -/
theorem mkVerts_eq_join (n : Nat) :
    mkVerts n =
      (List.replicate n [apexVertex, bottomLeftVertex, bottomRightVertex]).flatten := by
  induction n with
  | zero => rfl
  | succ k ih =>
    simp [mkVerts, List.replicate_succ, ih]

/-- The program's vertex array has three million entries. -/
theorem verts_length : verts.length = 3000000 := by
  show (mkVerts progN).length = 3000000
  rw [mkVerts_length]
  norm_num [progN]

/-- One event-loop step never changes the surface configuration and never
emits a configuration command. -/
theorem step_preserves_config {env : Env} {s : LoopState} {e : WEvent}
    {s1 : LoopState} {tr : List GpuCmd}
    (h : step env s e = Except.ok (s1, tr)) :
    s1.config = s.config ∧ List.countP isConfigureCmd tr = 0 := by
  cases e with
  | redrawRequested =>
    simp only [step] at h
    split at h
    · simp only [Except.ok.injEq, Prod.mk.injEq] at h
      obtain ⟨h1, h2⟩ := h
      subst h1; subst h2
      exact ⟨rfl, by simp [redrawSeq, isConfigureCmd]⟩
    · exact absurd h (by simp)
  | closeRequested =>
    simp only [step, Except.ok.injEq, Prod.mk.injEq] at h
    obtain ⟨h1, h2⟩ := h
    subst h1; subst h2
    exact ⟨rfl, rfl⟩
  | resized w hh =>
    simp only [step, Except.ok.injEq, Prod.mk.injEq] at h
    obtain ⟨h1, h2⟩ := h
    subst h1; subst h2
    exact ⟨rfl, rfl⟩
  | mainEventsCleared =>
    simp only [step, Except.ok.injEq, Prod.mk.injEq] at h
    obtain ⟨h1, h2⟩ := h
    subst h1; subst h2
    exact ⟨rfl, by simp [isConfigureCmd]⟩
  | other =>
    simp only [step, Except.ok.injEq, Prod.mk.injEq] at h
    obtain ⟨h1, h2⟩ := h
    subst h1; subst h2
    exact ⟨rfl, rfl⟩

/-- A whole event-loop run never changes the surface configuration and never
emits a configuration command. -/
theorem run_preserves_config {env : Env} :
    ∀ (evs : List WEvent) (s s2 : LoopState) (tr : List GpuCmd),
      run env s evs = Except.ok (s2, tr) →
      s2.config = s.config ∧ List.countP isConfigureCmd tr = 0 := by
  intro evs
  induction evs with
  | nil =>
    intro s s2 tr h
    simp only [run, Except.ok.injEq, Prod.mk.injEq] at h
    obtain ⟨h1, h2⟩ := h
    subst h1; subst h2
    exact ⟨rfl, rfl⟩
  | cons e es ih =>
    intro s s2 tr h
    simp only [run] at h
    split at h
    · simp only [Except.ok.injEq, Prod.mk.injEq] at h
      obtain ⟨h1, h2⟩ := h
      subst h1; subst h2
      exact ⟨rfl, rfl⟩
    · cases hstep : step env s e with
      | error msg =>
        rw [hstep] at h
        exact absurd h (by simp)
      | ok p =>
        obtain ⟨s1, cs⟩ := p
        rw [hstep] at h
        dsimp only at h
        cases hrun : run env s1 es with
        | error msg =>
          rw [hrun] at h
          exact absurd h (by simp)
        | ok q =>
          obtain ⟨sq, cs2⟩ := q
          rw [hrun] at h
          simp only [Except.ok.injEq, Prod.mk.injEq] at h
          obtain ⟨h1, h2⟩ := h
          subst h1; subst h2
          obtain ⟨hc1, hn1⟩ := step_preserves_config hstep
          obtain ⟨hc2, hn2⟩ := ih s1 sq cs2 hrun
          refine ⟨by rw [hc2, hc1], ?_⟩
          simp [List.countP_append, hn1, hn2]

/-! ## Claims -/

/-- Claim C1: the pipeline's single color target always equals the configured
surface format, and both constructions consume one shared queried format
value.  The first half holds: both values come from the same deterministic
preferred-format query of the same surface/adapter pair, so they coincide.
The second half is false of the code: the setup calls
surface.get_preferred_format twice (main.rs:85 binds swapchain_format for the
pipeline, main.rs:194 queries again for the surface configuration) instead of
threading the bound swapchain_format value through both constructions. -/
theorem claim_C1 :
    setupQueryCount env0 = 2 ∧
    setupQueryCount env0 ≠ 1 ∧
    (setupPipeline env0).fragmentTargets = [(setupConfig env0).format] ∧
    (∀ env : Env, (setupPipeline env).fragmentTargets = [(setupConfig env).format]) :=
  ⟨rfl, by decide, rfl, fun env => rfl⟩

/-- Claim C2 (counterexample to the claim as stated): deliver a size-changed
signal of 200 by 150 and then a redraw to the loop started at a 100 by 100
configuration; the next acquisition succeeds (one acquire command is emitted)
while the configuration still reads 100 by 100 rather than the new size, so
the configuration is not updated before the next successful acquisition and
no error is raised. -/
theorem claim_C2_counterexample :
    (run env0 (initState env0) [WEvent.resized 200 150, WEvent.redrawRequested]).map
        (fun p => (p.1.config.width, p.1.config.height)) = Except.ok (100, 100) ∧
    (run env0 (initState env0) [WEvent.resized 200 150, WEvent.redrawRequested]).map
        (fun p => List.countP isAcquireCmd p.2) = Except.ok 1 ∧
    ((100 : Nat), (100 : Nat)) ≠ ((200 : Nat), (150 : Nat)) :=
  ⟨rfl, rfl, by decide⟩

/-- Claim C2 (amended): the window is created non-resizable and the event
loop has no size-changed case, so a size-changed signal is ignored: it leaves
the loop state unchanged and emits nothing, and the following acquisition
proceeds with the unchanged presentation configuration. -/
theorem claim_C2 (env : Env) (s : LoopState) (w h : Nat)
    (hcf : s.controlFlow ≠ ControlFlow.exit)
    (hacq : env.acquireOk s.frames = true) :
    windowResizable = false ∧
    step env s (WEvent.resized w h) =
      Except.ok ({ s with controlFlow := ControlFlow.wait }, []) ∧
    run env s [WEvent.resized w h, WEvent.redrawRequested] =
      Except.ok ({ s with controlFlow := ControlFlow.wait, frames := s.frames + 1 },
        redrawSeq verts.length) := by
  refine ⟨rfl, rfl, ?_⟩
  simp [run, step, hcf, hacq]

/-- Witness for claim C2's amended theorem at the concrete environment env0
after setup. -/
theorem claim_C2_witness :
    (initState env0).controlFlow ≠ ControlFlow.exit ∧
    env0.acquireOk (initState env0).frames = true ∧
    run env0 (initState env0) [WEvent.resized 200 150, WEvent.redrawRequested] =
      Except.ok ({ initState env0 with
                   controlFlow := ControlFlow.wait
                   frames := (initState env0).frames + 1 }, redrawSeq verts.length) :=
  ⟨by decide, rfl, (claim_C2 env0 (initState env0) 200 150 (by decide) rfl).2.2⟩

/-- Claim C3: for every n of at least one, the constructed vertex array has
exactly 3 n vertices and is n juxtaposed copies of the one fixed triangle
whose apex, bottom-left and bottom-right vertices are red, green and blue;
the program instantiates n as one million and uploads exactly this array,
tagged for vertex use, once before the loop. -/
theorem claim_C3 (n : Nat) (_h1n : 1 ≤ n) :
    (mkVerts n).length = 3 * n ∧
    mkVerts n =
      (List.replicate n [apexVertex, bottomLeftVertex, bottomRightVertex]).flatten ∧
    apexVertex.color = red ∧
    bottomLeftVertex.color = green ∧
    bottomRightVertex.color = blue ∧
    progN = 1000000 ∧
    vertex_buffer.contents = mkVerts progN ∧
    vertex_buffer.usage = BufferUsages.vertex :=
  ⟨mkVerts_length n, mkVerts_eq_join n, rfl, rfl, rfl, rfl, rfl, rfl⟩

/-- Witness for claim C3 at n = 1. -/
theorem claim_C3_witness :
    1 ≤ 1 ∧
    ((mkVerts 1).length = 3 * 1 ∧
     mkVerts 1 =
       (List.replicate 1 [apexVertex, bottomLeftVertex, bottomRightVertex]).flatten ∧
     apexVertex.color = red ∧
     bottomLeftVertex.color = green ∧
     bottomRightVertex.color = blue ∧
     progN = 1000000 ∧
     vertex_buffer.contents = mkVerts progN ∧
     vertex_buffer.usage = BufferUsages.vertex) :=
  ⟨Nat.le_refl 1, claim_C3 1 (Nat.le_refl 1)⟩

/-- Claim C4: a successful redraw iteration emits exactly the fixed command
sequence: one encoder, one render pass with a clear-to-black load and a store
on exit, the pipeline bound, the vertex buffer bound at slot 0, one draw over
vertices 0 to 3 N with one instance, then the pass close, the encoder finish,
the submit and the present; each scoped construct occurs exactly once. -/
theorem claim_C4 (env : Env) (s : LoopState)
    (hacq : env.acquireOk s.frames = true) :
    step env s WEvent.redrawRequested =
      Except.ok ({ s with controlFlow := ControlFlow.wait, frames := s.frames + 1 },
        [ GpuCmd.acquire, GpuCmd.createView, GpuCmd.createEncoder,
          GpuCmd.beginRenderPass (LoadOp.clear colorBlack) true,
          GpuCmd.setPipeline, GpuCmd.setVertexBuffer 0,
          GpuCmd.draw 0 3000000 0 1,
          GpuCmd.endRenderPass, GpuCmd.finishEncoder,
          GpuCmd.submit, GpuCmd.present ]) ∧
    List.countP isCreateEncoderCmd (redrawSeq verts.length) = 1 ∧
    List.countP isBeginPassCmd (redrawSeq verts.length) = 1 ∧
    List.countP isDrawCmd (redrawSeq verts.length) = 1 ∧
    List.countP isEndPassCmd (redrawSeq verts.length) = 1 ∧
    List.countP isFinishCmd (redrawSeq verts.length) = 1 ∧
    3 * progN = 3000000 := by
  refine ⟨?_, ?_, ?_, ?_, ?_, ?_, by norm_num [progN]⟩
  · simp [step, hacq, redrawSeq, verts_length]
  · simp [redrawSeq, isCreateEncoderCmd]
  · simp [redrawSeq, isBeginPassCmd]
  · simp [redrawSeq, isDrawCmd]
  · simp [redrawSeq, isEndPassCmd]
  · simp [redrawSeq, isFinishCmd]

/-- Witness for claim C4 at the concrete environment env0 after setup. -/
theorem claim_C4_witness :
    env0.acquireOk (initState env0).frames = true ∧
    (step env0 (initState env0) WEvent.redrawRequested =
      Except.ok ({ initState env0 with
                   controlFlow := ControlFlow.wait
                   frames := (initState env0).frames + 1 },
        [ GpuCmd.acquire, GpuCmd.createView, GpuCmd.createEncoder,
          GpuCmd.beginRenderPass (LoadOp.clear colorBlack) true,
          GpuCmd.setPipeline, GpuCmd.setVertexBuffer 0,
          GpuCmd.draw 0 3000000 0 1,
          GpuCmd.endRenderPass, GpuCmd.finishEncoder,
          GpuCmd.submit, GpuCmd.present ]) ∧
     List.countP isCreateEncoderCmd (redrawSeq verts.length) = 1 ∧
     List.countP isBeginPassCmd (redrawSeq verts.length) = 1 ∧
     List.countP isDrawCmd (redrawSeq verts.length) = 1 ∧
     List.countP isEndPassCmd (redrawSeq verts.length) = 1 ∧
     List.countP isFinishCmd (redrawSeq verts.length) = 1 ∧
     3 * progN = 3000000) :=
  ⟨rfl, claim_C4 env0 (initState env0) rfl⟩

/-- Claim C5: if acquiring the next frame fails, the redraw step aborts with
the source's expect diagnostic, and the whole run terminates with that error
no matter what events were still pending: no retry and no reconfiguration is
attempted. -/
theorem claim_C5 (env : Env) (s : LoopState) (rest : List WEvent)
    (hcf : s.controlFlow ≠ ControlFlow.exit)
    (hacq : env.acquireOk s.frames = false) :
    step env s WEvent.redrawRequested =
      Except.error "Failed to acquire next swap chain texture" ∧
    run env s (WEvent.redrawRequested :: rest) =
      Except.error "Failed to acquire next swap chain texture" := by
  constructor
  · simp [step, hacq]
  · simp [run, step, hcf, hacq]

/-- Witness for claim C5 at a concrete environment whose acquisitions fail. -/
theorem claim_C5_witness :
    (initState envFail).controlFlow ≠ ControlFlow.exit ∧
    envFail.acquireOk (initState envFail).frames = false ∧
    run envFail (initState envFail) [WEvent.redrawRequested, WEvent.redrawRequested] =
      Except.error "Failed to acquire next swap chain texture" :=
  ⟨by decide, rfl,
    (claim_C5 envFail (initState envFail) [WEvent.redrawRequested] (by decide) rfl).2⟩

/-- Claim C6: a close signal processed while the loop is idle sets the
control flow to exit and emits no command at all (in particular no new
acquisition), and the run then ends; a close signal queued behind a redraw is
only processed after the redraw's full acquire-record-submit-present sequence
has been emitted, so it never interrupts an in-progress frame. -/
theorem claim_C6 (env : Env) (s : LoopState)
    (hcf : s.controlFlow ≠ ControlFlow.exit)
    (hacq : env.acquireOk s.frames = true) :
    step env s WEvent.closeRequested =
      Except.ok ({ s with controlFlow := ControlFlow.exit }, []) ∧
    run env s [WEvent.closeRequested] =
      Except.ok ({ s with controlFlow := ControlFlow.exit }, []) ∧
    run env s [WEvent.redrawRequested, WEvent.closeRequested] =
      Except.ok ({ s with controlFlow := ControlFlow.exit, frames := s.frames + 1 },
        redrawSeq verts.length) := by
  refine ⟨rfl, ?_, ?_⟩
  · simp [run, step, hcf]
  · simp [run, step, hcf, hacq]

/-- Witness for claim C6 at the concrete environment env0 after setup. -/
theorem claim_C6_witness :
    (initState env0).controlFlow ≠ ControlFlow.exit ∧
    env0.acquireOk (initState env0).frames = true ∧
    run env0 (initState env0) [WEvent.redrawRequested, WEvent.closeRequested] =
      Except.ok ({ initState env0 with
                   controlFlow := ControlFlow.exit
                   frames := (initState env0).frames + 1 }, redrawSeq verts.length) :=
  ⟨by decide, rfl, (claim_C6 env0 (initState env0) (by decide) rfl).2.2⟩

/-- Claim C7: the adapter request asks for a high-performance adapter, with
no software fallback, compatible with the presentation surface; the device
request asks for empty features and default limits; if no adapter qualifies,
or the device request cannot be satisfied, startup aborts with the respective
diagnostic instead of proceeding. -/
theorem claim_C7 (env : NegotiationEnv) :
    adapterOptions.powerPreference = PowerPreference.highPerformance ∧
    adapterOptions.forceFallbackAdapter = false ∧
    adapterOptions.compatibleSurface = some () ∧
    deviceDescriptor.features = 0 ∧
    deviceDescriptor.limits = Limits.default ∧
    (env.adapterAvailable adapterOptions = false →
      negotiate env = Except.error "Failed to find an appropriate adapter") ∧
    (env.adapterAvailable adapterOptions = true →
      env.deviceSatisfiable deviceDescriptor = false →
      negotiate env = Except.error "Failed to create device") ∧
    (env.adapterAvailable adapterOptions = true →
      env.deviceSatisfiable deviceDescriptor = true →
      negotiate env = Except.ok ()) := by
  refine ⟨rfl, rfl, rfl, rfl, rfl, ?_, ?_, ?_⟩
  · intro h1
    simp [negotiate, requestAdapter, h1]
  · intro h1 h2
    simp [negotiate, requestAdapter, requestDevice, h1, h2]
  · intro h1 h2
    simp [negotiate, requestAdapter, requestDevice, h1, h2]

/-- Witness for claim C7 at a backend with no qualifying adapter. -/
theorem claim_C7_witness :
    NegotiationEnv.adapterAvailable
        { adapterAvailable := fun _ => false, deviceSatisfiable := fun _ => true }
        adapterOptions = false ∧
    negotiate { adapterAvailable := fun _ => false, deviceSatisfiable := fun _ => true } =
      Except.error "Failed to find an appropriate adapter" :=
  ⟨rfl,
    (claim_C7 { adapterAvailable := fun _ => false,
                deviceSatisfiable := fun _ => true }).2.2.2.2.2.1 rfl⟩

/-- Claim C8: the declared vertex layout is a fixed-stride record of 24 bytes
(the size of one vertex record), stepped per vertex, with exactly two
3 by 32-bit-float attributes at offsets 0 and 12 (the size of one float
triple); the layout is the single entry of the pipeline's vertex buffer list
(input slot 0), and the redraw pass binds the vertex buffer at slot 0. -/
theorem claim_C8 :
    vbl.arrayStride = 24 ∧
    vbl.arrayStride = sizeOfVertex ∧
    sizeOfFloat3 = 12 ∧
    vbl.stepMode = VertexStepMode.vertex ∧
    vbl.attributes =
      [ { offset := 0, shaderLocation := 0, format := VertexFormat.float32x3 },
        { offset := 12, shaderLocation := 1, format := VertexFormat.float32x3 } ] ∧
    (∀ f : TextureFormat, (mkRenderPipeline f).vertexBuffers = [vbl]) ∧
    (∀ m : Nat, (redrawSeq m).get? 5 = some (GpuCmd.setVertexBuffer 0)) :=
  ⟨rfl, rfl, rfl, rfl, rfl, fun _ => rfl, fun _ => rfl⟩

/-- Claim C9: a live Frame Token is consumed by presentation and an
already-presented token is rejected rather than presented again; inside the
program every successful frame iteration acquires one token and presents it
exactly once. -/
theorem claim_C9 (t : FrameToken) (h : t.presented = false) :
    FrameToken.present t = Except.ok { presented := true } ∧
    FrameToken.present { presented := true } =
      Except.error "frame token already presented" ∧
    (∀ t2 : FrameToken, t2.presented = true →
      ∀ u : FrameToken, FrameToken.present t2 ≠ Except.ok u) ∧
    List.countP isPresentCmd (redrawSeq verts.length) = 1 ∧
    List.countP isAcquireCmd (redrawSeq verts.length) = 1 := by
  refine ⟨?_, rfl, ?_, ?_, ?_⟩
  · simp [FrameToken.present, h]
  · intro t2 h2 u
    simp [FrameToken.present, h2]
  · simp [redrawSeq, isPresentCmd]
  · simp [redrawSeq, isAcquireCmd]

/-- Witness for claim C9 at a fresh token. -/
theorem claim_C9_witness :
    FrameToken.presented { presented := false } = false ∧
    FrameToken.present { presented := false } = Except.ok { presented := true } :=
  ⟨rfl, (claim_C9 { presented := false } rfl).1⟩

/-- Claim C10: the window is built non-resizable; the setup configures the
surface exactly once, before the loop, with the queried format, the window's
startup inner size, render-attachment usage and immediate present mode; and
neither a single event-loop step nor a whole run ever changes the stored
configuration or emits another configuration command. -/
theorem claim_C10 (env : Env) (s : LoopState) (e : WEvent)
    (s1 : LoopState) (tr : List GpuCmd) (evs : List WEvent)
    (s2 : LoopState) (tr2 : List GpuCmd)
    (hstep : step env s e = Except.ok (s1, tr))
    (hrun : run env s evs = Except.ok (s2, tr2)) :
    windowResizable = false ∧
    (setupRun env).2.2 = [GpuCmd.configureSurface (setupConfig env)] ∧
    (setupConfig env).width = env.size.1 ∧
    (setupConfig env).height = env.size.2 ∧
    (setupConfig env).format = env.preferredFormat ∧
    (setupConfig env).usage = TextureUsages.renderAttachment ∧
    (setupConfig env).presentMode = PresentMode.immediate ∧
    s1.config = s.config ∧
    List.countP isConfigureCmd tr = 0 ∧
    s2.config = s.config ∧
    List.countP isConfigureCmd tr2 = 0 := by
  obtain ⟨h1, h2⟩ := step_preserves_config hstep
  obtain ⟨h3, h4⟩ := run_preserves_config evs s s2 tr2 hrun
  exact ⟨rfl, rfl, rfl, rfl, rfl, rfl, rfl, h1, h2, h3, h4⟩

/-- Witness for claim C10 at the concrete environment env0 after setup. -/
theorem claim_C10_witness :
    step env0 (initState env0) WEvent.other = Except.ok (initState env0, []) ∧
    run env0 (initState env0) [] = Except.ok (initState env0, []) ∧
    (windowResizable = false ∧
     (setupRun env0).2.2 = [GpuCmd.configureSurface (setupConfig env0)] ∧
     (setupConfig env0).width = env0.size.1 ∧
     (setupConfig env0).height = env0.size.2 ∧
     (setupConfig env0).format = env0.preferredFormat ∧
     (setupConfig env0).usage = TextureUsages.renderAttachment ∧
     (setupConfig env0).presentMode = PresentMode.immediate ∧
     (initState env0).config = (initState env0).config ∧
     List.countP isConfigureCmd [] = 0 ∧
     (initState env0).config = (initState env0).config ∧
     List.countP isConfigureCmd [] = 0) :=
  ⟨rfl, rfl,
    claim_C10 env0 (initState env0) WEvent.other (initState env0) [] []
      (initState env0) [] rfl rfl⟩

end TriangleTest
